import Mathlib

/-!
Shallow embedding of the connection-multiplexing core of the repository:
the `AsyncTrafficPolice` arbiter (`src/urllib3/util/_async/traffic_police.py`),
the `LowLevelResponse` body reader and the `ResponsePromise` equality model
(`src/urllib3/backend/_base.py`).

Python dictionaries (which preserve insertion order) are embedded as
association lists `List (κ × β)`; `dict[k] = v` is `dinsert` (replace in
place, else append), `del dict[k]` / `dict.pop(k)` is `derase`,
`dict.popitem()` removes the *last* entry (`getLast?` / `dropLast`), and the
idiom `new = {k: v}; new.update(old)` used throughout the source is
`headInsert` (insert at the front).  Python object identity `id(x)` is an
`oid : Nat` field carried by each item.  Exceptions are `Except` values and
the `await asyncio.sleep(0.001)` polling loops take an explicit iteration
fuel; `none` means the fuel ran out before the call returned.
-/

set_option autoImplicit false

universe u v

section DictModel

variable {κ : Type u} {β : Type v} [DecidableEq κ]

/-- `d[k]` lookup on the association-list model of a Python dict. -/
def dlookup (k : κ) : List (κ × β) → Option β
  | [] => none
  | (a, b) :: t => if a = k then some b else dlookup k t

/-- `k in d` membership test. -/
def dmem (k : κ) (l : List (κ × β)) : Bool :=
  (dlookup k l).isSome

/-- `del d[k]` / `d.pop(k)`: drop the (unique) binding of `k`. -/
def derase (k : κ) : List (κ × β) → List (κ × β)
  | [] => []
  | (a, b) :: t => if a = k then t else (a, b) :: derase k t

/-- `d[k] = v`: replace in place when the key exists, else append. -/
def dinsert (k : κ) (v : β) : List (κ × β) → List (κ × β)
  | [] => [(k, v)]
  | (a, b) :: t => if a = k then (k, v) :: t else (a, b) :: dinsert k v t

/-- The `new = {k: v}; new.update(old)` idiom: bind `k` at the front. -/
def headInsert (k : κ) (v : β) (l : List (κ × β)) : List (κ × β) :=
  (k, v) :: derase k l

/-- The keys of a well-formed dict are pairwise distinct. -/
def keysNodup (l : List (κ × β)) : Prop :=
  (l.map Prod.fst).Nodup

instance keysNodupDecidable (l : List (κ × β)) : Decidable (keysNodup l) := by
  unfold keysNodup; infer_instance

end DictModel

/-! ## Traffic Police arbiter (`util/_async/traffic_police.py`) -/

/-- Traffic state of a managed item.  Modelled from the spec: the enum and
`traffic_state_of` live in the synchronous `util/traffic_police.py`, which is
not among the provided sources; per the spec, `IDLE` iff `item.is_idle`,
`SATURATED` iff `item.is_saturated`, else `UNDER`. -/
inductive TrafficState where
  | idle
  | saturated
  | under
deriving DecidableEq

/-- A managed item (connection or nested pool), keyed by Python identity
`oid`.  `beaconKeys = some ks` models an item whose `pool` attribute is a
nested arbiter whose indicator map holds exactly the keys `ks`; `none`
models a plain connection (no `pool` attribute). -/
structure Item where
  oid : Nat
  isIdle : Bool
  isSaturated : Bool
  beaconKeys : Option (List Nat) := none
deriving DecidableEq

/-- Modelled from the spec: `traffic_state_of` (synchronous
`util/traffic_police.py`, not under the provided sources). -/
def traffic_state_of (it : Item) : TrafficState :=
  if it.isIdle then .idle else if it.isSaturated then .saturated else .under

/-- Traffic-indicator dict key: a `PoolKey` tuple is used by value, a
promise/response is used by identity (`id(obj)`). -/
inductive TKey where
  | tup (k : List Nat)
  | objId (o : Nat)
deriving DecidableEq

/-- `type(indicator)` as stored in `_map_types`. -/
inductive TType where
  | poolKeyT
  | promiseT
  | responseT
deriving DecidableEq

/-- A traffic indicator: a pool-selection key tuple, a response promise, or
a response object (the latter two identified by their `id`). -/
inductive Indicator where
  | poolKey (k : List Nat)
  | promise (o : Nat)
  | response (o : Nat)
deriving DecidableEq

def Indicator.key : Indicator → TKey
  | .poolKey k => .tup k
  | .promise o => .objId o
  | .response o => .objId o

def Indicator.ttype : Indicator → TType
  | .poolKey _ => .poolKeyT
  | .promise _ => .promiseT
  | .response _ => .responseT

/-- Python truthiness of an indicator (`if traffic_indicator:`): an empty
tuple is falsy, objects are truthy. -/
def Indicator.truthy : Indicator → Bool
  | .poolKey k => !k.isEmpty
  | _ => true

deriving instance DecidableEq for Except

/-- The exceptions the embedded operations can raise. -/
inductive Exc where
  | atomicTraffic
  | unavailableTraffic
  | overwhelmedTraffic
  | timeoutError
  | valueError
  | keyError
deriving DecidableEq

/-- `beacon(indicator)` of the nested sub-arbiter of `it`, for a concrete
(non-type) indicator: key membership in the sub-arbiter's `_map`. -/
def itemBeacon (it : Item) (ind : Indicator) : Bool :=
  match it.beaconKeys, ind.key with
  | some ks, .objId o => decide (o ∈ ks)
  | some _, .tup _ => false  -- the model keys nested maps by object ids only
  | none, _ => false

/-- The `AsyncTrafficPolice` state.  `registry`, `container`, `map` and
`map_types` are the four insertion-ordered dicts of the source; `cursor` is
the task-local borrow slot of the current task; `closedLog` records, in
order, the `oid`s on which `close()` has been awaited. -/
structure Police where
  maxsize : Option Nat
  concurrency : Bool
  registry : List (Nat × Item)
  container : List (Nat × Item)
  map : List (TKey × Item)
  map_types : List (TKey × TType)
  shutdown : Bool
  cursor : Option (Nat × Item)
  closedLog : List Nat
deriving DecidableEq

namespace Police

/-- `_map_clear(value)`: drop every `_map`/`_map_types` entry whose value is
`value` (compared by id), provided `value` is still registered. -/
def map_clear (s : Police) (value : Item) : Police :=
  if dmem value.oid s.registry then
    let outdated := (s.map.filter (fun kv => kv.2.oid = value.oid)).map Prod.fst
    { s with
      map := s.map.filter (fun kv => ¬ kv.1 ∈ outdated),
      map_types := s.map_types.filter (fun kt => ¬ kt.1 ∈ outdated) }
  else s

/-- `kill_cursor()`: unconditionally destroy the currently borrowed item.
`del self._registry[obj_id]` raises `KeyError` when the item is not
registered; the `close()` call swallows its own errors. -/
def kill_cursor (s : Police) : Except Exc Police :=
  match s.cursor with
  | none => .ok s
  | some (obj_id, conn_or_pool) =>
    let s1 := s.map_clear conn_or_pool
    if dmem obj_id s1.registry then
      .ok { s1 with
              registry := derase obj_id s1.registry,
              closedLog := s1.closedLog ++ [obj_id],
              cursor := none }
    else
      .error .keyError

/-- The scan of `_sacrifice_first_idle`: first registry entry (insertion
order) that is both in the container and `IDLE`. -/
def firstIdle (s : Police) : Option (Nat × Item) :=
  s.registry.find? (fun p => dmem p.1 s.container && decide (traffic_state_of p.2 = .idle))

/-- `_sacrifice_first_idle()`: evict the first registered item that is both
available and idle; raise `OverwhelmedTraffic` when none qualifies. -/
def sacrifice_first_idle (s : Police) : Except Exc Police :=
  if s.registry.length = 0 then .ok s
  else
    match s.firstIdle with
    | some (eligible_obj_id, eligible_conn_or_pool) =>
      let s1 := s.map_clear eligible_conn_or_pool
      .ok { s1 with
              registry := derase eligible_obj_id s1.registry,
              container := derase eligible_obj_id s1.container,
              closedLog := s1.closedLog ++ [eligible_obj_id] }
    | none => .error .overwhelmedTraffic

/-- `memorize(traffic_indicator, conn_or_pool)` once the target item is
settled: bind the indicator key in `_map` and its type in `_map_types`. -/
def memKey (s : Police) (ind : Indicator) (c : Item) : Police :=
  { s with
    map := dinsert ind.key c s.map,
    map_types := dinsert ind.key ind.ttype s.map_types }

/-- `memorize(traffic_indicator, conn_or_pool=None)`. -/
def memorize (s : Police) (ind : Indicator) (conn_or_pool : Option Item) :
    Except Exc Police :=
  match conn_or_pool with
  | none =>
    match s.cursor with
    | none => .error .atomicTraffic
    | some (_, c) => .ok (s.memKey ind c)
  | some c =>
    if dmem c.oid s.registry then .ok (s.memKey ind c)
    else .error .unavailableTraffic

/-- `forget(traffic_indicator)`: drop the mapping; missing keys are silent. -/
def forget (s : Police) (ind : Indicator) : Police :=
  if dmem ind.key s.map then
    { s with map := derase ind.key s.map, map_types := derase ind.key s.map_types }
  else s

/-- The `for indicator in traffic_indicators: self.memorize(indicator, conn_or_pool)`
loop at the end of `put`. -/
def memorizeAll (s : Police) (c : Item) : List Indicator → Except Exc Police
  | [] => .ok s
  | ind :: rest =>
    match s.memorize ind (some c) with
    | .error e => .error e
    | .ok s' => s'.memorizeAll c rest

/-- The registration tail of `put` (after the shutdown branch and the
sacrifice step): register, place into container or cursor, memorize. -/
def putMain (s : Police) (conn_or_pool : Item) (inds : List Indicator)
    (immediately_unavailable : Bool) : Except Exc Police :=
  let obj_id := conn_or_pool.oid
  let registered := dmem obj_id s.registry
  if registered && dmem obj_id s.container then
    .ok s
  else
    let s1 :=
      if registered then
        match s.cursor with
        | some (taken_obj_id, _) =>
          if taken_obj_id = obj_id then { s with cursor := none } else s
        | none => s
      else
        { s with registry := s.registry ++ [(obj_id, conn_or_pool)] }
    let s2 :=
      if !immediately_unavailable then
        { s1 with container := headInsert obj_id conn_or_pool s1.container }
      else
        let s1' := { s1 with cursor := some (obj_id, conn_or_pool) }
        if s1'.concurrency then
          { s1' with container := headInsert obj_id conn_or_pool s1'.container }
        else s1'
    s2.memorizeAll conn_or_pool inds

/-- `put(conn_or_pool, *traffic_indicators, block, immediately_unavailable)`.
The `block` parameter is accepted and unused, as in the source. -/
def put (s : Police) (conn_or_pool : Item) (inds : List Indicator)
    (block : Bool) (immediately_unavailable : Bool) : Except Exc Police :=
  if s.shutdown then
    match s.kill_cursor with
    | .error e => .error e
    | .ok s1 =>
      .ok { s1 with shutdown := if s1.registry.length = 0 then false else s1.shutdown }
  else
    let step1 : Except Exc Police :=
      if (match s.maxsize with
          | some m => decide (m ≤ s.registry.length)
          | none => false)
          && !(dmem conn_or_pool.oid s.registry) then
        s.sacrifice_first_idle
      else .ok s
    match step1 with
    | .error e => .error e
    | .ok s1 => s1.putMain conn_or_pool inds immediately_unavailable

/-- One successful selection inside `get`'s loop: pop the chosen entry, set
the cursor, and (under `concurrency`) re-insert at the container head. -/
def getTake (s : Police) (obj_id : Nat) (c : Item) (container' : List (Nat × Item)) :
    Option Item × Police :=
  let s1 := { s with container := container', cursor := some (obj_id, c) }
  let s2 :=
    if s1.concurrency then
      { s1 with container := headInsert obj_id c s1.container }
    else s1
  (some c, s2)

/-- The selection step inside `get`'s loop (`if len(self._container) > 0`):
popitem from the tail, or the first non-saturated / non-idle scan. -/
def getSelect (s : Police) (non_saturated_only not_idle_only : Bool) :
    Option (Option Item × Police) :=
  if s.container.length > 0 then
    if non_saturated_only then
      match s.container.find? (fun p => !decide (traffic_state_of p.2 = .saturated)) with
      | some (oid, c) => some (s.getTake oid c (derase oid s.container))
      | none => none
    else if !not_idle_only then
      match s.container.getLast? with
      | some (oid, c) => some (s.getTake oid c s.container.dropLast)
      | none => none
    else
      match s.container.find? (fun p => !decide (traffic_state_of p.2 = .idle)) with
      | some (oid, c) => some (s.getTake oid c (derase oid s.container))
      | none => none
  else none

/-- One iteration of `get`'s `while True` loop.  `.error r` ends the loop
with result `r`; `.ok wait'` models `await asyncio.sleep(0.001)` plus the
`_wait_clock` update, continuing the loop. -/
def getIter (s : Police) (block : Bool) (timeout : Option ℚ)
    (non_saturated_only not_idle_only : Bool) (wait : Option ℚ) :
    Except (Except Exc (Option Item × Police)) (Option ℚ) :=
  if s.cursor.isSome then
    .error (.error .atomicTraffic)
  else if s.container.isEmpty &&
      (match s.maxsize with
       | some m => decide (s.registry.length < m)
       | none => false) then
    .error (.ok (none, s))
  else
    match s.getSelect non_saturated_only not_idle_only with
    | some r => .error (.ok r)
    | none =>
      if block then
        match timeout, wait with
        | some t, some w =>
          if t ≤ w + 1 / 1000 then .error (.error .unavailableTraffic)
          else .ok (some (w + 1 / 1000))
        | _, _ => .ok wait
      else .error (.error .unavailableTraffic)

/-- The polling loop of `get(block, timeout, non_saturated_only, not_idle_only)`.
`wait` is the task-local `_wait_clock`; `none` as overall result means the
iteration fuel ran out while the call was still polling. -/
def getAux : Nat → Police → Bool → Option ℚ → Bool → Bool → Option ℚ →
    Option (Except Exc (Option Item × Police))
  | 0, _, _, _, _, _, _ => none
  | fuel + 1, s, block, timeout, non_saturated_only, not_idle_only, wait =>
    match s.getIter block timeout non_saturated_only not_idle_only wait with
    | .error r => some r
    | .ok wait' => getAux fuel s block timeout non_saturated_only not_idle_only wait'

/-- `get(block, timeout, non_saturated_only, not_idle_only)`. -/
def get (fuel : Nat) (s : Police) (block : Bool) (timeout : Option ℚ)
    (non_saturated_only : Bool) (not_idle_only : Bool) :
    Option (Except Exc (Option Item × Police)) :=
  getAux fuel s block timeout non_saturated_only not_idle_only
    (if timeout.isSome then some 0 else none)

/-- The pre-loop resolution of `locate`: `_map` hit, else the one-level
beacon descent over the registry. -/
def locateFind (s : Police) (ind : Indicator) : Option (Nat × Item) :=
  match dlookup ind.key s.map with
  | some c => some (c.oid, c)
  | none =>
    match s.registry.find? (fun p => itemBeacon p.2 ind) with
    | some (r_obj_id, r_conn_or_pool) => some (r_obj_id, r_conn_or_pool)
    | none => none

/-- One iteration of `locate`'s waiting loop once the target
`(obj_id, conn_or_pool)` is resolved. -/
def locateIter (s : Police) (obj_id : Nat) (c : Item) (block : Bool)
    (timeout : Option ℚ) (wait : Option ℚ) :
    Except (Except Exc (Option Item × Police)) (Option ℚ) :=
  match s.cursor with
  | some (cursor_obj_id, cursor_conn_or_pool) =>
    if cursor_obj_id = obj_id then .error (.ok (some cursor_conn_or_pool, s))
    else .error (.error .atomicTraffic)
  | none =>
    if !(dmem obj_id s.container) && !block then
      .error (.error .unavailableTraffic)
    else if dmem obj_id s.container then
      let s1 :=
        if !s.concurrency then { s with container := derase obj_id s.container }
        else s
      .error (.ok (some c, { s1 with cursor := some (obj_id, c) }))
    else
      match timeout, wait with
      | some t, some w =>
        if t ≤ w + 1 / 1000 then .error (.error .timeoutError)
        else .ok (some (w + 1 / 1000))
      | _, _ => .ok wait

/-- The waiting loop of `locate`. -/
def locateAux : Nat → Police → Nat → Item → Bool → Option ℚ → Option ℚ →
    Option (Except Exc (Option Item × Police))
  | 0, _, _, _, _, _, _ => none
  | fuel + 1, s, obj_id, c, block, timeout, wait =>
    match s.locateIter obj_id c block timeout wait with
    | .error r => some r
    | .ok wait' => locateAux fuel s obj_id c block timeout wait'

/-- `locate(traffic_indicator, block, timeout)`. -/
def locate (fuel : Nat) (s : Police) (ind : Indicator) (block : Bool)
    (timeout : Option ℚ) : Option (Except Exc (Option Item × Police)) :=
  match s.locateFind ind with
  | none => some (.ok (none, s))
  | some (obj_id, c) =>
    locateAux fuel s obj_id c block timeout (if timeout.isSome then some 0 else none)

/-- One pass of `_find_by`'s scan over `_map_types`: the first entry of the
requested indicator type whose item is not idle and available in the
container; the Boolean reports whether any non-idle entry of that type was
seen at all (`any_match`). -/
def findByScan (s : Police) (tt : TType) : List (TKey × TType) → Option Item × Bool
  | [] => (none, false)
  | (k, v) :: rest =>
    if v = tt then
      match dlookup k s.map with
      | some c =>
        if c.isIdle then s.findByScan tt rest
        else if dmem c.oid s.container then (some c, true)
        else ((s.findByScan tt rest).1, true)
      | none => s.findByScan tt rest
    else s.findByScan tt rest

/-- `_find_by(traffic_type, block)`. -/
def find_by : Nat → Police → TType → Bool → Option (Option Item)
  | 0, _, _, _ => none
  | fuel + 1, s, tt, block =>
    match s.findByScan tt s.map_types with
    | (some c, _) => some (some c)
    | (none, any_match) =>
      if block && any_match then s.find_by fuel tt block
      else some none

/-- The argument of `borrow`: nothing, a concrete indicator, or an
indicator type. -/
inductive BorrowArg where
  | noArg
  | byInd (i : Indicator)
  | byType (t : TType)
deriving DecidableEq

/-- The acquisition phase of the `borrow` context manager (everything up to
`yield conn_or_pool`); the `finally: self.release()` is `release` below. -/
def borrowAcquire (fuel : Nat) (s : Police) (arg : BorrowArg) (block : Bool)
    (timeout : Option ℚ) (not_idle_only : Bool) :
    Option (Except Exc (Item × Police)) :=
  let viaGet : Option (Except Exc (Option Item × Police)) :=
    match s.cursor with
    | some (obj_id, conn_or_pool) => some (.ok (some conn_or_pool, s))
    | none => s.get fuel block timeout false not_idle_only
  let res : Option (Except Exc (Option Item × Police)) :=
    match arg with
    | .byType tt =>
      match s.find_by fuel tt true with
      | none => none
      | some none => some (.ok (none, s))
      | some (some c) =>
        match s.cursor with
        | some (cursor_obj_id, _) =>
          if cursor_obj_id ≠ c.oid then some (.error .atomicTraffic)
          else
            let s1 :=
              if !s.concurrency then { s with container := derase c.oid s.container }
              else s
            some (.ok (some c, { s1 with cursor := some (c.oid, c) }))
        | none =>
          let s1 :=
            if !s.concurrency then { s with container := derase c.oid s.container }
            else s
          some (.ok (some c, { s1 with cursor := some (c.oid, c) }))
    | .byInd i =>
      if i.truthy then s.locate fuel i block timeout
      else viaGet
    | .noArg => viaGet
  match res with
  | none => none
  | some (.error e) => some (.error e)
  | some (.ok (none, _)) => some (.error .unavailableTraffic)
  | some (.ok (some c, s')) => some (.ok (c, s'))

/-- `release()`: re-insert the cursor item at the container head (when not
in concurrency mode) and clear the cursor. -/
def release (s : Police) : Police :=
  match s.cursor with
  | none => s
  | some (obj_id, conn_or_pool) =>
    let s1 :=
      if !s.concurrency then
        { s with container := headInsert obj_id conn_or_pool s.container }
      else s
    { s1 with cursor := none }

/-- One iteration of `wait_for_unallocated_or_available_slot`'s loop.  The
timeout guard is the literal `combined_wait >= combined_wait` comparison of
the source. -/
def waitUnallocIter (s : Police) (timeout : Option ℚ) (combined_wait : ℚ) :
    Except (Except Exc Unit × ℚ) ℚ :=
  match s.maxsize with
  | none => .error (.ok (), combined_wait)
  | some m =>
    if s.registry.length < m then .error (.ok (), combined_wait)
    else if (s.registry.find? (fun p =>
        !decide (traffic_state_of p.2 = .saturated) && dmem p.1 s.container)).isSome then
      .error (.ok (), combined_wait)
    else
      if timeout.isSome && decide (combined_wait + 1 / 1000 ≤ combined_wait + 1 / 1000) then
        .error (.error .timeoutError, combined_wait + 1 / 1000)
      else
        .ok (combined_wait + 1 / 1000)

/-- `wait_for_unallocated_or_available_slot(timeout)`; the result carries
the final `combined_wait`. -/
def wait_for_unallocated_or_available_slot :
    Nat → Police → Option ℚ → ℚ → Option (Except Exc Unit × ℚ)
  | 0, _, _, _ => none
  | fuel + 1, s, timeout, combined_wait =>
    match s.waitUnallocIter timeout combined_wait with
    | .error r => some r
    | .ok cw => wait_for_unallocated_or_available_slot fuel s timeout cw

/-- One iteration of `wait_for_idle_or_available_slot`'s loop, with the
same literal `combined_wait >= combined_wait` timeout guard. -/
def waitIdleIter (s : Police) (timeout : Option ℚ) (combined_wait : ℚ) :
    Except (Except Exc Unit × ℚ) ℚ :=
  match s.maxsize with
  | none => .error (.ok (), combined_wait)
  | some m =>
    if s.registry.length < m then .error (.ok (), combined_wait)
    else if (s.registry.find? (fun p =>
        decide (traffic_state_of p.2 = .idle) && dmem p.1 s.container)).isSome then
      .error (.ok (), combined_wait)
    else
      if timeout.isSome && decide (combined_wait + 1 / 1000 ≤ combined_wait + 1 / 1000) then
        .error (.error .timeoutError, combined_wait + 1 / 1000)
      else
        .ok (combined_wait + 1 / 1000)

/-- `wait_for_idle_or_available_slot(timeout)`. -/
def wait_for_idle_or_available_slot :
    Nat → Police → Option ℚ → ℚ → Option (Except Exc Unit × ℚ)
  | 0, _, _, _ => none
  | fuel + 1, s, timeout, combined_wait =>
    match s.waitIdleIter timeout combined_wait with
    | .error r => some r
    | .ok cw => wait_for_idle_or_available_slot fuel s timeout cw

end Police

/-! ## LowLevelResponse body reader and ResponsePromise (`backend/_base.py`) -/

/-- The `LowLevelResponse` streaming state.  `wire` is the body bytes the
underlying protocol state machine has not yet produced; `buffer_excess` is
the private overflow buffer `__buffer_excess`; `eot` is `_eot`; `closed` is
`closed` (which coincides with `__internal_read_st is None` in every state
the constructor and `read`/`close` produce). -/
structure LLR where
  wire : List Nat
  buffer_excess : List Nat
  eot : Bool
  closed : Bool
deriving DecidableEq

/-- Modelled from the spec: the body-reader callable handed to
`LowLevelResponse.__init__` lives in the protocol backends, which are not
among the provided sources.  Per the spec it produces
`(chunk, end_of_transmission)` given `(max_size, stream_id)`, with frames
sized by the wire rather than by the caller; `oracle` is the chunk size the
wire happens to deliver on this call (a prefix of the remaining bytes), and
`eot` reports exhaustion. -/
def readerCall (oracle : Nat) (s : LLR) : List Nat × Bool × LLR :=
  (s.wire.take oracle, (s.wire.drop oracle).isEmpty, { s with wire := s.wire.drop oracle })

/-- The bytes of the body not yet returned to the caller. -/
def LLR.remaining (s : LLR) : Nat :=
  s.buffer_excess.length + s.wire.length

/-- `LowLevelResponse.read(__size)`.  `oracle` parameterizes the external
reader (see `readerCall`). -/
def LLR.read (s : LLR) (size : Option Nat) (oracle : Nat) :
    Except Exc (List Nat × LLR) :=
  if s.closed then .error .valueError
  else if size = some 0 then .ok ([], s)
  else
    let (data1, s1) :=
      if s.eot = false then
        let (chunk, neot, s') := readerCall oracle s
        (s.buffer_excess ++ chunk, { s' with buffer_excess := [], eot := neot })
      else
        match size with
        | none => (s.buffer_excess, s)
        | some n => (s.buffer_excess.take n, { s with buffer_excess := s.buffer_excess.drop n })
    let (data2, s2) :=
      match size with
      | some n =>
        if n < data1.length then (data1.take n, { s1 with buffer_excess := data1.drop n })
        else (data1, s1)
      | none => (data1, s1)
    let s3 := if s2.eot && s2.buffer_excess.isEmpty then { s2 with closed := true } else s2
    .ok (data2, s3)

/-- A sequence of `read` calls, each given its requested size and the chunk
size the wire delivers; `none` when some call raises. -/
def LLR.runReads : LLR → List (Nat × Nat) → Option (List (List Nat) × LLR)
  | s, [] => some ([], s)
  | s, (n, oracle) :: rest =>
    match s.read (some n) oracle with
    | .error _ => none
    | .ok (out, s') =>
      match s'.runReads rest with
      | none => none
      | some (outs, sf) => some (out :: outs, sf)

/-- `ResponsePromise`: the fields `__eq__` and the claims inspect.  The
`uid` is the base64 of 16 random bytes in the source; the remaining
constructor fields (request headers, parameter map, response slot) do not
take part in equality. -/
structure ResponsePromise where
  uid : String
  conn : Nat
  stream_id : Nat
deriving DecidableEq

/-- `ResponsePromise.__eq__` (on two promises): uid comparison. -/
def ResponsePromise.eqPy (p q : ResponsePromise) : Bool :=
  p.uid = q.uid

/-! ## Dict-model lemmas -/

section DictLemmas

variable {κ : Type u} {β : Type v} [DecidableEq κ]

@[simp] theorem dlookup_nil (k : κ) : dlookup k ([] : List (κ × β)) = none := rfl

@[simp] theorem dlookup_cons (k a : κ) (b : β) (t : List (κ × β)) :
    dlookup k ((a, b) :: t) = if a = k then some b else dlookup k t := rfl

theorem dlookup_mem {k : κ} {b : β} {l : List (κ × β)} (h : dlookup k l = some b) :
    (k, b) ∈ l := by
  induction l with
  | nil => simp at h
  | cons p t ih =>
    obtain ⟨a, c⟩ := p
    by_cases hak : a = k
    · subst hak
      simp at h
      simp [h]
    · simp [hak] at h
      exact List.mem_cons_of_mem _ (ih h)

theorem dlookup_derase_ne {k k' : κ} (h : k ≠ k') (l : List (κ × β)) :
    dlookup k (derase k' l) = dlookup k l := by
  induction l with
  | nil => rfl
  | cons p t ih =>
    obtain ⟨a, c⟩ := p
    by_cases hak : a = k'
    · subst hak
      simp [derase, Ne.symm h]
    · simp [derase, hak]
      by_cases hk : a = k
      · simp [hk]
      · simp [hk, ih]

theorem derase_sublist (k : κ) (l : List (κ × β)) : (derase k l).Sublist l := by
  induction l with
  | nil => simp [derase]
  | cons p t ih =>
    obtain ⟨a, c⟩ := p
    by_cases hak : a = k
    · simp only [derase, if_pos hak]
      exact List.sublist_cons_of_sublist _ (List.Sublist.refl t)
    · simp only [derase, if_neg hak]
      exact List.Sublist.cons₂ _ ih

theorem keysNodup_derase {k : κ} {l : List (κ × β)} (h : keysNodup l) :
    keysNodup (derase k l) :=
  h.sublist ((derase_sublist k l).map Prod.fst)

theorem dmem_false_of_not_key {k : κ} {l : List (κ × β)}
    (h : k ∉ l.map Prod.fst) : dlookup k l = none := by
  induction l with
  | nil => rfl
  | cons p t ih =>
    obtain ⟨a, c⟩ := p
    have hak : a ≠ k := by
      intro hh
      exact h (by simp [hh])
    simp only [dlookup_cons, if_neg hak]
    exact ih (fun hm => h (by simp at hm ⊢; right; exact hm))

theorem map_fst_derase_of_nodup {k : κ} {l : List (κ × β)} (h : keysNodup l) :
    k ∉ (derase k l).map Prod.fst := by
  induction l with
  | nil => simp [derase]
  | cons p t ih =>
    obtain ⟨a, c⟩ := p
    have hc := List.nodup_cons.mp h
    by_cases hak : a = k
    · subst hak
      simpa [derase] using hc.1
    · simp only [derase, if_neg hak, List.map_cons]
      intro hm
      rcases List.mem_cons.mp hm with hm | hm
      · exact hak hm.symm
      · exact ih hc.2 hm

theorem dlookup_derase_self {k : κ} {l : List (κ × β)} (h : keysNodup l) :
    dlookup k (derase k l) = none :=
  dmem_false_of_not_key (map_fst_derase_of_nodup h)

theorem dlookup_derase_ne' {k k' : κ} (h : k ≠ k') (l : List (κ × β)) :
    dlookup k (derase k' l) = dlookup k l :=
  dlookup_derase_ne h l

theorem dlookup_dinsert_self (k : κ) (v : β) (l : List (κ × β)) :
    dlookup k (dinsert k v l) = some v := by
  induction l with
  | nil => simp [dinsert]
  | cons p t ih =>
    obtain ⟨a, c⟩ := p
    by_cases hak : a = k
    · simp [dinsert, hak]
    · simp [dinsert, hak, ih]

theorem dlookup_dinsert_ne {k k' : κ} (h : k' ≠ k) (v : β) (l : List (κ × β)) :
    dlookup k (dinsert k' v l) = dlookup k l := by
  induction l with
  | nil => simp [dinsert, h]
  | cons p t ih =>
    obtain ⟨a, c⟩ := p
    by_cases hak : a = k'
    · subst hak
      simp [dinsert, h]
    · simp [dinsert, hak]
      by_cases hk : a = k
      · simp [hk]
      · simp [hk, ih]

theorem map_fst_dinsert (k : κ) (v : β) (l : List (κ × β)) :
    (dinsert k v l).map Prod.fst =
      if k ∈ l.map Prod.fst then l.map Prod.fst else l.map Prod.fst ++ [k] := by
  induction l with
  | nil => simp [dinsert]
  | cons p t ih =>
    obtain ⟨a, c⟩ := p
    by_cases hak : a = k
    · subst hak
      simp [dinsert]
    · simp only [dinsert, if_neg hak, List.map_cons, ih]
      by_cases hk : k ∈ t.map Prod.fst
      · simp [hk, Ne.symm hak]
      · simp [hk, Ne.symm hak]

theorem keysNodup_dinsert {k : κ} {v : β} {l : List (κ × β)} (h : keysNodup l) :
    keysNodup (dinsert k v l) := by
  unfold keysNodup at *
  rw [map_fst_dinsert]
  by_cases hk : k ∈ l.map Prod.fst
  · simpa [hk] using h
  · simp only [if_neg hk]
    rw [List.nodup_append]
    refine ⟨h, List.nodup_singleton _, ?_⟩
    intro a ha hb
    simp at hb
    subst hb
    exact hk ha

theorem dmem_of_mem {k : κ} {b : β} {l : List (κ × β)} (h : (k, b) ∈ l) :
    dmem k l = true := by
  induction l with
  | nil => simp at h
  | cons p t ih =>
    obtain ⟨a, c⟩ := p
    by_cases hak : a = k
    · simp [dmem, dlookup, hak]
    · rcases List.mem_cons.mp h with h | h
      · cases h
        exact absurd rfl hak
      · simpa [dmem, dlookup, hak] using ih h

theorem dlookup_append (k : κ) (l1 l2 : List (κ × β)) :
    dlookup k (l1 ++ l2) = match dlookup k l1 with
      | some v => some v
      | none => dlookup k l2 := by
  induction l1 with
  | nil => simp
  | cons p t ih =>
    obtain ⟨a, c⟩ := p
    by_cases hak : a = k
    · simp [dlookup, hak]
    · simp [dlookup, hak, ih]

end DictLemmas


/-- After `_map_clear` of the item with id `o`, no surviving `_map` entry
points to an item with id `o`. -/
theorem mapClear_value_ne {lm : List (TKey × Item)} {o : Nat} {k : TKey} {c : Item}
    (h : dlookup k (lm.filter
      (fun kv => ¬ kv.1 ∈ ((lm.filter (fun kv => kv.2.oid = o)).map Prod.fst))) = some c) :
    c.oid ≠ o := by
  intro hco
  have hm1 := dlookup_mem h
  have hm2 := List.mem_filter.mp hm1
  have hnot : ¬ (k ∈ (lm.filter (fun kv => kv.2.oid = o)).map Prod.fst) := by
    simpa using hm2.2
  apply hnot
  refine List.mem_map.mpr ⟨(k, c), ?_, rfl⟩
  exact List.mem_filter.mpr ⟨hm2.1, by simpa using hco⟩

/-- After `_map_clear` of the item with id `o`, every `_map_types` key that
pointed (through `_map`) to that item is gone. -/
theorem mapClear_types_none {lm : List (TKey × Item)} {lt : List (TKey × TType)}
    {o : Nat} {k : TKey} {c : Item}
    (hk : dlookup k lm = some c) (hc : c.oid = o) :
    dlookup k (lt.filter
      (fun kt => ¬ kt.1 ∈ ((lm.filter (fun kv => kv.2.oid = o)).map Prod.fst))) = none := by
  apply dmem_false_of_not_key
  intro hmem
  rcases List.mem_map.mp hmem with ⟨q, hq, hfst⟩
  have hnot : ¬ (q.1 ∈ (lm.filter (fun kv => kv.2.oid = o)).map Prod.fst) := by
    simpa using (List.mem_filter.mp hq).2
  apply hnot
  rw [hfst]
  exact List.mem_map.mpr ⟨(k, c), List.mem_filter.mpr ⟨dlookup_mem hk, by simpa using hc⟩, rfl⟩

/-! ## Claims -/

/-- Claim C1: the claim states that with `concurrency=false`, after `put(x)`
(`immediately_unavailable=false`) being the most recent admission, `get()`
returns `x` (LIFO pop from the container head).  Evaluation of the embedded
code: `put` inserts at the *front* of the container dict, but `get` uses
`dict.popitem()`, which removes the *last* entry — the least recently
admitted item.  After `put A; put B`, `get()` returns `A`, not `B`. -/
theorem c1_get_pops_oldest_not_newest :
    ((Police.put ⟨none, false, [], [], [], [], false, none, []⟩
        ⟨1, true, false, none⟩ [] false false).bind
      (fun sA => sA.put ⟨2, true, false, none⟩ [] false false)).map
      (fun sB => (sB.get 1 true none false false).map
        (fun r => r.map Prod.fst))
    = .ok (some (.ok (some ⟨1, true, false, none⟩))) := by
  decide

/-- Claim C2: with a full registry and no qualifying item, both
`wait_for_*_slot` methods raise `Timeout` on the very first 1 ms poll, for
*every* finite timeout `t` — the accumulated wait at that point is
`cw + 0.001`, far below a timeout like 5 s — because the source's guard
compares `combined_wait >= combined_wait` instead of
`combined_wait >= timeout`. -/
theorem c2_wait_slot_timeout_fires_on_first_poll (s : Police) (m fuel : Nat)
    (t cw : ℚ)
    (hms : s.maxsize = some m) (hfull : ¬ s.registry.length < m)
    (hscan1 : s.registry.find?
      (fun p => !decide (traffic_state_of p.2 = .saturated) && dmem p.1 s.container) = none)
    (hscan2 : s.registry.find?
      (fun p => decide (traffic_state_of p.2 = .idle) && dmem p.1 s.container) = none)
    (hfuel : 1 ≤ fuel) :
    Police.wait_for_unallocated_or_available_slot fuel s (some t) cw
      = some (.error .timeoutError, cw + 1 / 1000) ∧
    Police.wait_for_idle_or_available_slot fuel s (some t) cw
      = some (.error .timeoutError, cw + 1 / 1000) := by
  obtain ⟨k, rfl⟩ : ∃ k, fuel = k + 1 := ⟨fuel - 1, by omega⟩
  constructor
  · unfold Police.wait_for_unallocated_or_available_slot
    simp [Police.waitUnallocIter, hms, hfull, hscan1]
  · unfold Police.wait_for_idle_or_available_slot
    simp [Police.waitIdleIter, hms, hfull, hscan2]

/-- Witness for C2: a saturated single-item pool with `maxsize=1` and a
5-second timeout times out on the first poll, at accumulated wait 0.001 s. -/
theorem c2_wait_slot_timeout_fires_on_first_poll_witness :
    Police.wait_for_unallocated_or_available_slot 1
        ⟨some 1, false, [(1, ⟨1, false, true, none⟩)], [(1, ⟨1, false, true, none⟩)],
         [], [], false, none, []⟩ (some 5) 0
      = some (.error .timeoutError, 0 + 1 / 1000) ∧
    Police.wait_for_idle_or_available_slot 1
        ⟨some 1, false, [(1, ⟨1, false, true, none⟩)], [(1, ⟨1, false, true, none⟩)],
         [], [], false, none, []⟩ (some 5) 0
      = some (.error .timeoutError, 0 + 1 / 1000) ∧
    (0 + 1 / 1000 : ℚ) < 5 := by
  refine ⟨?_, ?_, by norm_num⟩
  · exact (c2_wait_slot_timeout_fires_on_first_poll
      ⟨some 1, false, [(1, ⟨1, false, true, none⟩)], [(1, ⟨1, false, true, none⟩)],
       [], [], false, none, []⟩ 1 1 5 0 rfl (by decide) (by decide) (by decide) (by decide)).1
  · exact (c2_wait_slot_timeout_fires_on_first_poll
      ⟨some 1, false, [(1, ⟨1, false, true, none⟩)], [(1, ⟨1, false, true, none⟩)],
       [], [], false, none, []⟩ 1 1 5 0 rfl (by decide) (by decide) (by decide) (by decide)).2

/-- Claim C9: with `maxsize` set, an empty container, a registry strictly
below `maxsize`, and no item held by the current task, `get()` returns
`None` on its first iteration — no `UnavailableTraffic`, no polling —
regardless of `block`, `timeout` and the selection flags. -/
theorem c9_get_returns_none_below_maxsize (s : Police) (m fuel : Nat)
    (block : Bool) (timeout : Option ℚ) (non_saturated_only not_idle_only : Bool)
    (hcur : s.cursor = none) (hcont : s.container = [])
    (hms : s.maxsize = some m) (hlt : s.registry.length < m) (hfuel : 1 ≤ fuel) :
    s.get fuel block timeout non_saturated_only not_idle_only
      = some (.ok (none, s)) := by
  obtain ⟨k, rfl⟩ : ∃ k, fuel = k + 1 := ⟨fuel - 1, by omega⟩
  unfold Police.get Police.getAux
  simp [Police.getIter, hcur, hcont, hms, hlt]

/-- Witness for C9 at a concrete state. -/
theorem c9_get_returns_none_below_maxsize_witness :
    Police.get 1 ⟨some 2, false, [(1, ⟨1, true, false, none⟩)], [], [], [], false, none, []⟩
        true none false false
      = some (.ok (none, ⟨some 2, false, [(1, ⟨1, true, false, none⟩)], [], [], [], false, none, []⟩)) :=
  c9_get_returns_none_below_maxsize
    ⟨some 2, false, [(1, ⟨1, true, false, none⟩)], [], [], [], false, none, []⟩
    2 1 true none false false rfl rfl rfl (by decide) (by decide)

/-- Claim C10: outside shutdown, `put` of an item that is both registered
and currently available in the container returns immediately and leaves the
whole arbiter state — registry, container, cursor, `_map`, `_map_types` —
unchanged; in particular the supplied indicators are not memorized. -/
theorem c10_put_registered_available_is_noop (s : Police) (x : Item)
    (inds : List Indicator) (block immediately_unavailable : Bool)
    (hsd : s.shutdown = false)
    (hreg : dmem x.oid s.registry = true)
    (hcon : dmem x.oid s.container = true) :
    s.put x inds block immediately_unavailable = .ok s := by
  unfold Police.put
  simp only [hsd, Bool.false_eq_true, if_false]
  have hc1 : ((match s.maxsize with
      | some m => decide (m ≤ s.registry.length)
      | none => false) && !(dmem x.oid s.registry)) = false := by
    simp [hreg]
  rw [hc1]
  simp only [Bool.false_eq_true, if_false]
  unfold Police.putMain
  simp [hreg, hcon]

/-- Witness for C10 at a concrete state. -/
theorem c10_put_registered_available_is_noop_witness :
    Police.put ⟨some 1, false, [(3, ⟨3, true, false, none⟩)], [(3, ⟨3, true, false, none⟩)],
        [], [], false, none, []⟩ ⟨3, true, false, none⟩ [.promise 9] false false
      = .ok ⟨some 1, false, [(3, ⟨3, true, false, none⟩)], [(3, ⟨3, true, false, none⟩)],
        [], [], false, none, []⟩ :=
  c10_put_registered_available_is_noop _ _ [.promise 9] false false rfl (by decide) (by decide)

/-- Counterexample to claim C3 as stated: with `maxsize = 0` the registry
already holds `maxsize` items and no registered item is in the container
and IDLE, so the claim predicts `OverwhelmedTraffic` without admission; but
`_sacrifice_first_idle` returns silently on an empty registry and the new
item is admitted. -/
theorem c3_maxsize_zero_put_admits :
    Police.put ⟨some 0, false, [], [], [], [], false, none, []⟩
        ⟨1, true, false, none⟩ [] false false
      = .ok ⟨some 0, false, [(1, ⟨1, true, false, none⟩)],
          [(1, ⟨1, true, false, none⟩)], [], [], false, none, []⟩ := by
  decide

/-- Claim C3 (amended: `maxsize ≥ 1`, equivalently a non-empty registry):
outside shutdown, `put` of a new item on a registry holding at least
`maxsize ≥ 1` items evicts exactly the first registry entry (insertion
order) that is both in the container and IDLE — removing it from registry,
container and both indicator maps, and closing it — then admits the new
item at the container head; when no registered item qualifies it raises
`OverwhelmedTraffic` admitting nothing. -/
theorem c3_eviction_amended (s : Police) (x : Item) (m : Nat)
    (hsd : s.shutdown = false) (hms : s.maxsize = some m)
    (hm : 1 ≤ m) (hfull : m ≤ s.registry.length)
    (hnew : dlookup x.oid s.registry = none)
    (hregnd : keysNodup s.registry) (hcontnd : keysNodup s.container)
    (hids : ∀ p ∈ s.registry, p.1 = p.2.oid) :
    (∀ eid e, s.firstIdle = some (eid, e) →
      ∃ s', s.put x [] false false = .ok s' ∧
        s'.registry = derase eid s.registry ++ [(x.oid, x)] ∧
        s'.container = headInsert x.oid x (derase eid s.container) ∧
        dlookup eid s'.registry = none ∧
        dlookup eid s'.container = none ∧
        dlookup x.oid s'.registry = some x ∧
        (∀ k c, dlookup k s'.map = some c → c.oid ≠ eid) ∧
        (∀ k c, dlookup k s.map = some c → c.oid = eid →
          dlookup k s'.map_types = none) ∧
        s'.closedLog = s.closedLog ++ [eid]) ∧
    (s.firstIdle = none → s.put x [] false false = .error .overwhelmedTraffic) := by
  have hlen0 : ¬ s.registry.length = 0 := by omega
  have hnewb : dmem x.oid s.registry = false := by
    unfold dmem
    rw [hnew]
    rfl
  have hcond : ((match s.maxsize with
      | some m => decide (m ≤ s.registry.length)
      | none => false) && !(dmem x.oid s.registry)) = true := by
    rw [hms, hnewb]
    simp [hfull]
  constructor
  · intro eid e hfi
    have hmem : (eid, e) ∈ s.registry :=
      List.mem_of_find?_eq_some hfi
    have heo : eid = e.oid := hids (eid, e) hmem
    have hdm : dmem eid s.registry = true := dmem_of_mem hmem
    have hdm' : dmem e.oid s.registry = true := heo ▸ hdm
    have hxe : x.oid ≠ eid := by
      intro hh
      rw [hh] at hnew
      unfold dmem at hdm
      rw [hnew] at hdm
      simp at hdm
    have hsac : s.sacrifice_first_idle = .ok
        { s with
          map := s.map.filter
            (fun kv => ¬ kv.1 ∈ ((s.map.filter (fun kv => kv.2.oid = e.oid)).map Prod.fst)),
          map_types := s.map_types.filter
            (fun kt => ¬ kt.1 ∈ ((s.map.filter (fun kv => kv.2.oid = e.oid)).map Prod.fst)),
          registry := derase eid s.registry,
          container := derase eid s.container,
          closedLog := s.closedLog ++ [eid] } := by
      unfold Police.sacrifice_first_idle
      rw [if_neg hlen0, hfi]
      unfold Police.map_clear
      simp [hdm']
    have hregx1 : dmem x.oid (derase eid s.registry) = false := by
      unfold dmem
      rw [dlookup_derase_ne hxe, hnew]
      rfl
    have hput : s.put x [] false false = .ok
        { s with
          map := s.map.filter
            (fun kv => ¬ kv.1 ∈ ((s.map.filter (fun kv => kv.2.oid = e.oid)).map Prod.fst)),
          map_types := s.map_types.filter
            (fun kt => ¬ kt.1 ∈ ((s.map.filter (fun kv => kv.2.oid = e.oid)).map Prod.fst)),
          registry := derase eid s.registry ++ [(x.oid, x)],
          container := headInsert x.oid x (derase eid s.container),
          closedLog := s.closedLog ++ [eid] } := by
      unfold Police.put
      rw [if_neg (by simp [hsd]), hcond, if_pos rfl, hsac]
      unfold Police.putMain
      simp [hregx1, Police.memorizeAll]
    refine ⟨_, hput, rfl, rfl, ?_, ?_, ?_, ?_, ?_, rfl⟩
    · rw [dlookup_append]
      rw [dlookup_derase_self hregnd]
      simp [dlookup, hxe]
    · unfold headInsert
      rw [dlookup_cons, if_neg hxe, dlookup_derase_ne (Ne.symm hxe),
        dlookup_derase_self hcontnd]
    · rw [dlookup_append]
      rw [dlookup_derase_ne hxe, hnew]
      simp [dlookup]
    · intro k c h
      rw [heo]
      exact mapClear_value_ne h
    · intro k c hk hc
      exact mapClear_types_none hk (hc.trans heo)
  · intro hfi
    have hsac : s.sacrifice_first_idle = .error .overwhelmedTraffic := by
      unfold Police.sacrifice_first_idle
      rw [if_neg hlen0, hfi]
    unfold Police.put
    rw [if_neg (by simp [hsd]), hcond, if_pos rfl, hsac]

/-- Witness for C3: `maxsize=1`, registry full with an idle available item
`A` (id 1, memorized under an indicator); putting a new item (id 2) evicts
exactly `A`, closing it, and admits the new item. -/
theorem c3_eviction_amended_witness :
    ∃ s', Police.put
        ⟨some 1, false, [(1, ⟨1, true, false, none⟩)], [(1, ⟨1, true, false, none⟩)],
         [(TKey.objId 7, ⟨1, true, false, none⟩)], [(TKey.objId 7, TType.promiseT)],
         false, none, []⟩
        ⟨2, true, false, none⟩ [] false false = .ok s' ∧
      dlookup 1 s'.registry = none ∧
      dlookup 2 s'.registry = some ⟨2, true, false, none⟩ ∧
      dlookup (TKey.objId 7) s'.map_types = none ∧
      s'.closedLog = [1] := by
  obtain ⟨s', hput, hre, hco, k1, k2, k3, k4, k5, k6⟩ :=
    (c3_eviction_amended
      ⟨some 1, false, [(1, ⟨1, true, false, none⟩)], [(1, ⟨1, true, false, none⟩)],
       [(TKey.objId 7, ⟨1, true, false, none⟩)], [(TKey.objId 7, TType.promiseT)],
       false, none, []⟩
      ⟨2, true, false, none⟩ 1 rfl rfl (by decide) (by decide) (by decide)
      (by decide) (by decide) (by decide)).1 1 ⟨1, true, false, none⟩ (by decide)
  exact ⟨s', hput, k1, k3, k5 (TKey.objId 7) ⟨1, true, false, none⟩ (by decide) rfl,
    by simpa using k6⟩

/-- Counterexample to claim C5 as stated: in the shutdown state with an
empty cursor, `put(item)` neither closes nor registers the given item — the
shutdown branch calls `kill_cursor()`, which closes the *cursor* item, not
the argument.  Here nothing is closed (`closedLog` stays empty), yet the
claim says the given item (id 7) is closed. -/
theorem c5_shutdown_put_ignores_given_item :
    Police.put ⟨none, false, [(5, ⟨5, true, false, none⟩)], [], [], [], true, none, []⟩
        ⟨7, true, false, none⟩ [] false false
      = .ok ⟨none, false, [(5, ⟨5, true, false, none⟩)], [], [], [], true, none, []⟩ := by
  decide

/-- Claim C5 (amended: the closed-and-discarded item is the one held by the
current task's cursor — in the ordinary return path that is the argument
itself): under shutdown, `put(x)` with `cursor = (id(x), x)` closes `x`,
removes it from the registry and the indicator map, leaves it out of the
container, clears the cursor, and resets the `shutdown` flag exactly when
the registry has drained. -/
theorem c5_shutdown_put_amended (s : Police) (x : Item) (inds : List Indicator)
    (block immediately_unavailable : Bool)
    (hsd : s.shutdown = true)
    (hcur : s.cursor = some (x.oid, x))
    (hreg : dmem x.oid s.registry = true)
    (hregnd : keysNodup s.registry)
    (hcont : dlookup x.oid s.container = none) :
    ∃ s', s.put x inds block immediately_unavailable = .ok s' ∧
      s'.registry = derase x.oid s.registry ∧
      s'.cursor = none ∧
      dlookup x.oid s'.registry = none ∧
      dlookup x.oid s'.container = none ∧
      s'.closedLog = s.closedLog ++ [x.oid] ∧
      (∀ k c, dlookup k s'.map = some c → c.oid ≠ x.oid) ∧
      (s'.shutdown = false ↔ s'.registry.length = 0) := by
  have hkill : s.kill_cursor = .ok
      { s with
        map := s.map.filter
          (fun kv => ¬ kv.1 ∈ ((s.map.filter (fun kv => kv.2.oid = x.oid)).map Prod.fst)),
        map_types := s.map_types.filter
          (fun kt => ¬ kt.1 ∈ ((s.map.filter (fun kv => kv.2.oid = x.oid)).map Prod.fst)),
        registry := derase x.oid s.registry,
        closedLog := s.closedLog ++ [x.oid],
        cursor := none } := by
    unfold Police.kill_cursor
    rw [hcur]
    unfold Police.map_clear
    simp [hreg]
  have hput : s.put x inds block immediately_unavailable = .ok
      { s with
        map := s.map.filter
          (fun kv => ¬ kv.1 ∈ ((s.map.filter (fun kv => kv.2.oid = x.oid)).map Prod.fst)),
        map_types := s.map_types.filter
          (fun kt => ¬ kt.1 ∈ ((s.map.filter (fun kv => kv.2.oid = x.oid)).map Prod.fst)),
        registry := derase x.oid s.registry,
        closedLog := s.closedLog ++ [x.oid],
        cursor := none,
        shutdown := if (derase x.oid s.registry).length = 0 then false else true } := by
    unfold Police.put
    rw [if_pos (by simp [hsd]), hkill]
    simp [hsd]
  refine ⟨_, hput, rfl, rfl, dlookup_derase_self hregnd, hcont,
    rfl, ?_, ?_⟩
  · intro k c h
    exact mapClear_value_ne h
  · by_cases h : (derase x.oid s.registry).length = 0 <;> simp [h]

/-- Witness for C5: the borrowed item (id 3) returned under shutdown is
closed, deregistered, forgotten from the indicator map, and — the registry
having drained — the shutdown flag is reset. -/
theorem c5_shutdown_put_amended_witness :
    ∃ s', Police.put
        ⟨none, false, [(3, ⟨3, true, false, none⟩)], [],
         [(TKey.objId 9, ⟨3, true, false, none⟩)], [(TKey.objId 9, TType.promiseT)],
         true, some (3, ⟨3, true, false, none⟩), []⟩
        ⟨3, true, false, none⟩ [] false false = .ok s' ∧
      s'.cursor = none ∧
      dlookup 3 s'.registry = none ∧
      s'.closedLog = [3] ∧
      s'.shutdown = false := by
  obtain ⟨s', hput, hre, hc, hr, hco, hcl, hm, hs⟩ :=
    c5_shutdown_put_amended
      ⟨none, false, [(3, ⟨3, true, false, none⟩)], [],
       [(TKey.objId 9, ⟨3, true, false, none⟩)], [(TKey.objId 9, TType.promiseT)],
       true, some (3, ⟨3, true, false, none⟩), []⟩
      ⟨3, true, false, none⟩ [] false false rfl rfl (by decide) (by decide) (by decide)
  refine ⟨s', hput, hc, hr, by simpa using hcl, hs.mpr ?_⟩
  rw [hre]
  decide

/-- Counterexample to claim C4 as stated: a task already holding item `A`
(non-empty cursor) that initiates a second `borrow()` *without an
indicator* does not get `AtomicTraffic` — the source deliberately
"simulate[s] reentrant lock/borrow" and yields the held item again. -/
theorem c4_second_borrow_reentrant_not_atomic :
    Police.borrowAcquire 1
        ⟨none, false, [(1, ⟨1, false, false, none⟩)], [], [], [], false,
         some (1, ⟨1, false, false, none⟩), []⟩
        .noArg true none false
      = some (.ok (⟨1, false, false, none⟩,
          ⟨none, false, [(1, ⟨1, false, false, none⟩)], [], [], [], false,
           some (1, ⟨1, false, false, none⟩), []⟩)) := by
  decide

/-- Claim C4 (amended): with a non-empty cursor, a second borrow raises
`AtomicTraffic` exactly when it designates a *different* item — via a
traffic indicator mapped to another item (and likewise a bare `get()`
raises it); a second `borrow()` without an indicator (or whose indicator
resolves to the held item) is reentrant and returns the held item; and the
same indicator borrow performed by a sibling task (own empty cursor)
succeeds when the item is available. -/
theorem c4_borrow_amended (s : Police) (oid : Nat) (cc b : Item) (i : Indicator)
    (fuel : Nat) (block : Bool) (timeout : Option ℚ) (not_idle_only : Bool)
    (hcur : s.cursor = some (oid, cc))
    (hmap : dlookup i.key s.map = some b)
    (hdiff : ¬ b.oid = oid)
    (htr : i.truthy = true)
    (havail : dmem b.oid s.container = true)
    (hfuel : 1 ≤ fuel) :
    s.borrowAcquire fuel .noArg block timeout not_idle_only
      = some (.ok (cc, s)) ∧
    s.borrowAcquire fuel (.byInd i) block timeout not_idle_only
      = some (.error .atomicTraffic) ∧
    (∃ s', Police.borrowAcquire fuel { s with cursor := none } (.byInd i)
        block timeout not_idle_only
      = some (.ok (b, s')) ∧ s'.cursor = some (b.oid, b)) ∧
    (∀ gfuel, 1 ≤ gfuel →
      Police.getAux gfuel s block timeout false not_idle_only none
        = some (.error .atomicTraffic)) := by
  obtain ⟨k, rfl⟩ : ∃ k, fuel = k + 1 := ⟨fuel - 1, by omega⟩
  refine ⟨?_, ?_, ?_, ?_⟩
  · unfold Police.borrowAcquire
    simp [hcur]
  · simp only [Police.borrowAcquire, htr, if_true, Police.locate, Police.locateFind]
    rw [hmap]
    unfold Police.locateAux Police.locateIter
    rw [hcur]
    simp only []
    rw [if_neg (Ne.symm hdiff)]
  · simp only [Police.borrowAcquire, htr, if_true, Police.locate, Police.locateFind]
    rw [hmap]
    unfold Police.locateAux Police.locateIter
    simp only [havail]
    by_cases hcc : s.concurrency <;> simp [hcc]
  · intro gfuel hg
    obtain ⟨j, rfl⟩ : ∃ j, gfuel = j + 1 := ⟨gfuel - 1, by omega⟩
    unfold Police.getAux Police.getIter
    simp [hcur]

/-- Witness for C4: task holds item 1; `borrow()` is reentrant; borrowing
by an indicator mapped to item 2 raises `AtomicTraffic`; a sibling task
(empty cursor) succeeds at the same indicator borrow; a bare `get()` under
a held cursor raises `AtomicTraffic`. -/
theorem c4_borrow_amended_witness :
    Police.borrowAcquire 1
        ⟨none, false, [(1, ⟨1, false, false, none⟩), (2, ⟨2, false, false, none⟩)],
         [(2, ⟨2, false, false, none⟩)], [(TKey.objId 5, ⟨2, false, false, none⟩)],
         [(TKey.objId 5, TType.promiseT)], false, some (1, ⟨1, false, false, none⟩), []⟩
        .noArg true none false
      = some (.ok (⟨1, false, false, none⟩,
          ⟨none, false, [(1, ⟨1, false, false, none⟩), (2, ⟨2, false, false, none⟩)],
           [(2, ⟨2, false, false, none⟩)], [(TKey.objId 5, ⟨2, false, false, none⟩)],
           [(TKey.objId 5, TType.promiseT)], false, some (1, ⟨1, false, false, none⟩), []⟩)) ∧
    Police.borrowAcquire 1
        ⟨none, false, [(1, ⟨1, false, false, none⟩), (2, ⟨2, false, false, none⟩)],
         [(2, ⟨2, false, false, none⟩)], [(TKey.objId 5, ⟨2, false, false, none⟩)],
         [(TKey.objId 5, TType.promiseT)], false, some (1, ⟨1, false, false, none⟩), []⟩
        (.byInd (.promise 5)) true none false
      = some (.error .atomicTraffic) ∧
    (∃ s', Police.borrowAcquire 1
        ⟨none, false, [(1, ⟨1, false, false, none⟩), (2, ⟨2, false, false, none⟩)],
         [(2, ⟨2, false, false, none⟩)], [(TKey.objId 5, ⟨2, false, false, none⟩)],
         [(TKey.objId 5, TType.promiseT)], false, none, []⟩
        (.byInd (.promise 5)) true none false
      = some (.ok (⟨2, false, false, none⟩, s')) ∧
      s'.cursor = some (2, ⟨2, false, false, none⟩)) ∧
    Police.getAux 1
        ⟨none, false, [(1, ⟨1, false, false, none⟩), (2, ⟨2, false, false, none⟩)],
         [(2, ⟨2, false, false, none⟩)], [(TKey.objId 5, ⟨2, false, false, none⟩)],
         [(TKey.objId 5, TType.promiseT)], false, some (1, ⟨1, false, false, none⟩), []⟩
        true none false false none
      = some (.error .atomicTraffic) := by
  have H := c4_borrow_amended
    ⟨none, false, [(1, ⟨1, false, false, none⟩), (2, ⟨2, false, false, none⟩)],
     [(2, ⟨2, false, false, none⟩)], [(TKey.objId 5, ⟨2, false, false, none⟩)],
     [(TKey.objId 5, TType.promiseT)], false, some (1, ⟨1, false, false, none⟩), []⟩
    1 ⟨1, false, false, none⟩ ⟨2, false, false, none⟩ (.promise 5) 1 true none false
    rfl (by decide) (by decide) (by decide) (by decide) (by decide)
  exact ⟨H.1, H.2.1, H.2.2.1, H.2.2.2 1 (by decide)⟩

/-- Claim C8: for a registered item `x` available in the container and an
empty cursor, `memorize(i, x); locate(i)` returns `x`; after `forget(i)` a
`locate(i)` reports not-found (no nested arbiter advertises `i`); and
`forget` of an unmapped indicator is silent. -/
theorem c8_memorize_locate_forget (s : Police) (x : Item) (i j : Indicator)
    (fuel : Nat) (block : Bool)
    (hcur : s.cursor = none)
    (hreg : dmem x.oid s.registry = true)
    (hcont : dmem x.oid s.container = true)
    (hmapnd : keysNodup s.map)
    (hbeacon : ∀ p ∈ s.registry, itemBeacon p.2 i = false)
    (hmissing : dlookup j.key s.map = none)
    (hfuel : 1 ≤ fuel) :
    s.memorize i (some x) = .ok (s.memKey i x) ∧
    (∃ s2, (s.memKey i x).locate fuel i block none = some (.ok (some x, s2))) ∧
    ((s.memKey i x).forget i).locate fuel i block none
      = some (.ok (none, (s.memKey i x).forget i)) ∧
    s.forget j = s := by
  obtain ⟨k, rfl⟩ : ∃ k, fuel = k + 1 := ⟨fuel - 1, by omega⟩
  refine ⟨?_, ?_, ?_, ?_⟩
  · unfold Police.memorize
    simp [hreg]
  · unfold Police.locate Police.locateFind
    simp only [Police.memKey]
    rw [dlookup_dinsert_self]
    unfold Police.locateAux Police.locateIter
    simp only [hcur, hcont]
    by_cases hcc : s.concurrency <;> simp [hcc]
  · have h1 : dmem i.key (dinsert i.key x s.map) = true := by
      unfold dmem
      rw [dlookup_dinsert_self]
      rfl
    have h2 : dlookup i.key (derase i.key (dinsert i.key x s.map)) = none :=
      dlookup_derase_self (keysNodup_dinsert hmapnd)
    have h3 : s.registry.find? (fun p => itemBeacon p.2 i) = none := by
      apply List.find?_eq_none.mpr
      intro p hp
      simp [hbeacon p hp]
    unfold Police.locate Police.locateFind
    unfold Police.forget
    simp only [Police.memKey, h1, if_true]
    rw [h2, h3]
  · unfold Police.forget
    simp [dmem, hmissing]

/-- Witness for C8 on a one-item arbiter: memorize a promise indicator,
locate it back, forget it and observe not-found, and forget a missing
indicator silently. -/
theorem c8_memorize_locate_forget_witness :
    Police.memorize ⟨none, false, [(1, ⟨1, true, false, none⟩)],
        [(1, ⟨1, true, false, none⟩)], [], [], false, none, []⟩
        (.promise 9) (some ⟨1, true, false, none⟩)
      = .ok ⟨none, false, [(1, ⟨1, true, false, none⟩)], [(1, ⟨1, true, false, none⟩)],
          [(TKey.objId 9, ⟨1, true, false, none⟩)], [(TKey.objId 9, TType.promiseT)],
          false, none, []⟩ ∧
    (∃ s2, Police.locate 1
        ⟨none, false, [(1, ⟨1, true, false, none⟩)], [(1, ⟨1, true, false, none⟩)],
         [(TKey.objId 9, ⟨1, true, false, none⟩)], [(TKey.objId 9, TType.promiseT)],
         false, none, []⟩
        (.promise 9) true none = some (.ok (some ⟨1, true, false, none⟩, s2))) ∧
    Police.locate 1 ⟨none, false, [(1, ⟨1, true, false, none⟩)],
        [(1, ⟨1, true, false, none⟩)], [], [], false, none, []⟩
        (.promise 9) true none
      = some (.ok (none, ⟨none, false, [(1, ⟨1, true, false, none⟩)],
          [(1, ⟨1, true, false, none⟩)], [], [], false, none, []⟩)) ∧
    Police.forget ⟨none, false, [(1, ⟨1, true, false, none⟩)],
        [(1, ⟨1, true, false, none⟩)], [], [], false, none, []⟩ (.response 4)
      = ⟨none, false, [(1, ⟨1, true, false, none⟩)], [(1, ⟨1, true, false, none⟩)],
         [], [], false, none, []⟩ := by
  have H := c8_memorize_locate_forget
    ⟨none, false, [(1, ⟨1, true, false, none⟩)], [(1, ⟨1, true, false, none⟩)],
     [], [], false, none, []⟩
    ⟨1, true, false, none⟩ (.promise 9) (.response 4) 1 true
    rfl (by decide) (by decide) (by decide) (by decide) (by decide) (by decide)
  exact ⟨H.1, H.2.1, H.2.2.1, H.2.2.2⟩

/-- Counterexample to claim C7 as stated: `__eq__` compares only the uid,
and nothing in the code prevents two distinct promises from carrying the
same uid (it is 16 random bytes, not checked for uniqueness), so `p1 == p2`
does not entail `p1.stream_id == p2.stream_id`. -/
theorem c7_uid_collision_breaks_stream_id :
    ResponsePromise.eqPy ⟨"u", 1, 1⟩ ⟨"u", 1, 3⟩ = true ∧
    (⟨"u", 1, 1⟩ : ResponsePromise).stream_id ≠
      (⟨"u", 1, 3⟩ : ResponsePromise).stream_id := by
  decide

/-- Claim C7 (amended): `p1 == p2` iff the uids match; and *when uids
determine promises* (the intent of the random 16-byte uid — the code does
not enforce it), equal promises also share their stream id. -/
theorem c7_promise_eq_amended (p q : ResponsePromise)
    (huniq : p.uid = q.uid → p = q) :
    (ResponsePromise.eqPy p q = true ↔ p.uid = q.uid) ∧
    (ResponsePromise.eqPy p q = true → p.uid = q.uid ∧ p.stream_id = q.stream_id) := by
  constructor
  · simp [ResponsePromise.eqPy]
  · intro h
    have hu : p.uid = q.uid := by simpa [ResponsePromise.eqPy] using h
    exact ⟨hu, by rw [huniq hu]⟩

/-- Witness for C7 at a concrete promise pair. -/
theorem c7_promise_eq_amended_witness :
    (ResponsePromise.eqPy ⟨"a", 0, 2⟩ ⟨"a", 0, 2⟩ = true ↔ ("a" : String) = "a") ∧
    (ResponsePromise.eqPy ⟨"a", 0, 2⟩ ⟨"a", 0, 2⟩ = true →
      ("a" : String) = "a" ∧ (2 : Nat) = 2) :=
  c7_promise_eq_amended ⟨"a", 0, 2⟩ ⟨"a", 0, 2⟩ (fun _ => rfl)

/-- Evaluation of `read(n)` after end-of-transmission: slice the overflow
buffer. -/
theorem LLR.read_eval_eot (s : LLR) (n oracle : Nat)
    (hc : s.closed = false) (hn : ¬ n = 0) (he : s.eot = true) :
    s.read (some n) oracle = .ok (s.buffer_excess.take n,
      if s.eot && (s.buffer_excess.drop n).isEmpty then
        { s with buffer_excess := s.buffer_excess.drop n, closed := true }
      else { s with buffer_excess := s.buffer_excess.drop n }) := by
  unfold LLR.read
  rw [if_neg (by simp [hc]), if_neg (by simp [hn])]
  rw [he]
  simp only [Bool.true_eq_false, if_false]
  rw [if_neg (by simp only [List.length_take]; omega)]

/-- Evaluation of `read(n)` before end-of-transmission: pull a wire chunk
of `oracle` bytes, prepend the overflow buffer, slice at `n`. -/
theorem LLR.read_eval_mid (s : LLR) (n oracle : Nat)
    (hc : s.closed = false) (hn : ¬ n = 0) (he : s.eot = false) :
    s.read (some n) oracle = .ok (
      (s.buffer_excess ++ s.wire.take oracle).take n,
      (fun s2 => if s2.eot && s2.buffer_excess.isEmpty then
          { s2 with closed := true } else s2)
        { wire := s.wire.drop oracle,
          buffer_excess := if n < (s.buffer_excess ++ s.wire.take oracle).length
            then (s.buffer_excess ++ s.wire.take oracle).drop n else [],
          eot := (s.wire.drop oracle).isEmpty,
          closed := s.closed }) := by
  unfold LLR.read readerCall
  rw [if_neg (by simp [hc]), if_neg (by simp [hn])]
  rw [he]
  rw [if_pos rfl]
  by_cases hlt : n < (s.buffer_excess ++ s.wire.take oracle).length
  · simp only [hlt, if_true]
  · simp only [hlt, if_false]
    have htk : List.take n (s.buffer_excess ++ List.take oracle s.wire)
        = s.buffer_excess ++ List.take oracle s.wire :=
      List.take_of_length_le (by omega)
    rw [htk]

/-- One successful sized `read` conserves the body bytes, keeps the
eot-wire invariant, and closes only with both overflow and wire empty. -/
theorem LLR.read_step (s : LLR) (n oracle : Nat) (out : List Nat) (s' : LLR)
    (hinv : s.eot = true → s.wire = [])
    (h : s.read (some n) oracle = .ok (out, s')) :
    out ++ s'.buffer_excess ++ s'.wire = s.buffer_excess ++ s.wire ∧
    (s'.eot = true → s'.wire = []) ∧
    (s'.closed = true → s'.buffer_excess = [] ∧ s'.wire = []) ∧
    s.closed = false := by
  cases hb : s.closed with
  | true =>
    exfalso
    unfold LLR.read at h
    simp [hb] at h
  | false =>
  by_cases hn0 : n = 0
  · subst hn0
    unfold LLR.read at h
    simp [hb] at h
    obtain ⟨rfl, rfl⟩ := h
    refine ⟨rfl, hinv, ?_, rfl⟩
    intro hcl
    rw [hb] at hcl
    cases hcl
  · cases heot : s.eot with
    | true =>
      have hw : s.wire = [] := hinv heot
      rw [LLR.read_eval_eot s n oracle hb hn0 heot] at h
      by_cases hcond : (s.eot && (s.buffer_excess.drop n).isEmpty) = true
      · rw [if_pos hcond] at h
        simp only [Except.ok.injEq, Prod.mk.injEq] at h
        obtain ⟨rfl, rfl⟩ := h
        refine ⟨by simp [List.take_append_drop], by simpa using hinv, ?_, rfl⟩
        intro _
        have : (s.buffer_excess.drop n).isEmpty = true := by
          simpa [heot] using hcond
        exact ⟨by simpa using this, by simpa using hw⟩
      · rw [if_neg hcond] at h
        simp only [Except.ok.injEq, Prod.mk.injEq] at h
        obtain ⟨rfl, rfl⟩ := h
        refine ⟨by simp [List.take_append_drop], by simpa using hinv, ?_, rfl⟩
        intro hcl
        rw [hb] at hcl
        cases hcl
    | false =>
      rw [LLR.read_eval_mid s n oracle hb hn0 heot] at h
      simp only [] at h
      by_cases hlt : n < (s.buffer_excess ++ s.wire.take oracle).length
      · simp only [hlt, if_true] at h
        by_cases hcond : ((s.wire.drop oracle).isEmpty &&
            ((s.buffer_excess ++ s.wire.take oracle).drop n).isEmpty) = true
        · rw [if_pos hcond] at h
          simp only [Except.ok.injEq, Prod.mk.injEq] at h
          obtain ⟨rfl, rfl⟩ := h
          refine ⟨?_, ?_, ?_, rfl⟩
          · simp only []
            rw [List.take_append_drop, List.append_assoc, List.take_append_drop]
          · intro _
            simp only []
            rw [Bool.and_eq_true] at hcond
            simpa using hcond.1
          · intro _
            rw [Bool.and_eq_true] at hcond
            exact ⟨by simpa using hcond.2, by simpa using hcond.1⟩
        · rw [if_neg hcond] at h
          simp only [Except.ok.injEq, Prod.mk.injEq] at h
          obtain ⟨rfl, rfl⟩ := h
          refine ⟨?_, ?_, ?_, rfl⟩
          · simp only []
            rw [List.take_append_drop, List.append_assoc, List.take_append_drop]
          · intro he
            simp only [] at he ⊢
            simpa using he
          · intro hcl
            simp only [] at hcl
            rw [hb] at hcl
            cases hcl
      · simp only [hlt, if_false] at h
        by_cases hcond : ((s.wire.drop oracle).isEmpty &&
            (List.nil (α := Nat)).isEmpty) = true
        · rw [if_pos hcond] at h
          simp only [Except.ok.injEq, Prod.mk.injEq] at h
          obtain ⟨rfl, rfl⟩ := h
          refine ⟨?_, ?_, ?_, rfl⟩
          · have htk : List.take n (s.buffer_excess ++ List.take oracle s.wire)
                = s.buffer_excess ++ List.take oracle s.wire :=
              List.take_of_length_le (by omega)
            rw [htk]
            simp only [List.append_nil]
            rw [List.append_assoc, List.take_append_drop]
          · intro _
            simp only []
            rw [Bool.and_eq_true] at hcond
            simpa using hcond.1
          · intro _
            rw [Bool.and_eq_true] at hcond
            exact ⟨rfl, by simpa using hcond.1⟩
        · rw [if_neg hcond] at h
          simp only [Except.ok.injEq, Prod.mk.injEq] at h
          obtain ⟨rfl, rfl⟩ := h
          refine ⟨?_, ?_, ?_, rfl⟩
          · have htk : List.take n (s.buffer_excess ++ List.take oracle s.wire)
                = s.buffer_excess ++ List.take oracle s.wire :=
              List.take_of_length_le (by omega)
            rw [htk]
            simp only [List.append_nil]
            rw [List.append_assoc, List.take_append_drop]
          · intro he
            simp only [] at he ⊢
            simpa using he
          · intro hcl
            simp only [] at hcl
            rw [hb] at hcl
            cases hcl

/-- A sized `read` returns exactly `min n remaining` bytes when the reader
delivers at least the requested amount of the remaining wire. -/
theorem LLR.read_length (s : LLR) (n oracle : Nat)
    (hc : s.closed = false) (hn : 0 < n)
    (hinv : s.eot = true → s.wire = [])
    (hor : s.eot = false → min n s.wire.length ≤ oracle) :
    ∃ out s', s.read (some n) oracle = .ok (out, s') ∧
      out.length = min n s.remaining := by
  have hn0 : ¬ n = 0 := by omega
  cases heot : s.eot with
  | true =>
    refine ⟨_, _, LLR.read_eval_eot s n oracle hc hn0 heot, ?_⟩
    have hw : s.wire = [] := hinv heot
    simp [LLR.remaining, hw, List.length_take]
  | false =>
    refine ⟨_, _, LLR.read_eval_mid s n oracle hc hn0 heot, ?_⟩
    have := hor heot
    simp only [List.length_take, List.length_append, LLR.remaining]
    omega

/-- A successful sequence of sized reads conserves the body; if it ends
closed, the body has been fully handed out. -/
theorem LLR.runReads_spec (calls : List (Nat × Nat)) (s : LLR)
    (outs : List (List Nat)) (sf : LLR)
    (hinv : s.eot = true → s.wire = [])
    (h : s.runReads calls = some (outs, sf)) :
    outs.join ++ sf.buffer_excess ++ sf.wire = s.buffer_excess ++ s.wire ∧
    (sf.closed = true → (sf.buffer_excess = [] ∧ sf.wire = []) ∨ s.closed = true) := by
  induction calls generalizing s outs with
  | nil =>
    unfold LLR.runReads at h
    simp only [Option.some.injEq, Prod.mk.injEq] at h
    obtain ⟨rfl, rfl⟩ := h
    exact ⟨by simp, fun hcl => Or.inr hcl⟩
  | cons c rest ih =>
    obtain ⟨n, oracle⟩ := c
    unfold LLR.runReads at h
    cases hr : s.read (some n) oracle with
    | error e =>
      rw [hr] at h
      simp at h
    | ok p =>
      obtain ⟨out, s'⟩ := p
      rw [hr] at h
      dsimp only at h
      cases hrest : s'.runReads rest with
      | none =>
        rw [hrest] at h
        simp at h
      | some q =>
        obtain ⟨outs', sf'⟩ := q
        rw [hrest] at h
        simp only [Option.some.injEq, Prod.mk.injEq] at h
        obtain ⟨rfl, rfl⟩ := h
        obtain ⟨hcons, hinv', hclosed', hopen⟩ := LLR.read_step s n oracle out s' hinv hr
        obtain ⟨ihcons, ihclosed⟩ := ih s' outs' hinv' hrest
        constructor
        · calc (out :: outs').join ++ sf'.buffer_excess ++ sf'.wire
              = out ++ (outs'.join ++ sf'.buffer_excess ++ sf'.wire) := by
                simp [List.append_assoc]
            _ = out ++ (s'.buffer_excess ++ s'.wire) := by rw [ihcons]
            _ = out ++ s'.buffer_excess ++ s'.wire := by rw [List.append_assoc]
            _ = s.buffer_excess ++ s.wire := hcons
        · intro hcl
          rcases ihclosed hcl with hre | hscl
          · exact Or.inl hre
          · have h0 := hclosed' hscl
            have hz : outs'.join ++ sf'.buffer_excess ++ sf'.wire = [] := by
              rw [ihcons, h0.1, h0.2]
              rfl
            simp only [List.append_eq_nil] at hz
            exact Or.inl ⟨hz.1.2, hz.2⟩

/-- Claim C6: on an open response with `remaining > 0` and a reader that
delivers at least the requested bytes (frames may overshoot `n`), a sized
`read(n)` returns exactly `min(n, remaining)` bytes, losing nothing to the
overflow buffer (out ++ overflow ++ wire is conserved); and any successful
sequence of sized reads that ends with the response closed returns, in
concatenation, exactly the full body. -/
theorem c6_llr_read_exact_slicing (s : LLR) (n oracle : Nat)
    (calls : List (Nat × Nat)) (outs : List (List Nat)) (sf : LLR)
    (hclosed : s.closed = false) (hn : 0 < n) (hrem : 0 < s.remaining)
    (hinv : s.eot = true → s.wire = [])
    (hor : s.eot = false → min n s.wire.length ≤ oracle)
    (hrun : s.runReads calls = some (outs, sf))
    (hdone : sf.closed = true) :
    (∃ out s', s.read (some n) oracle = .ok (out, s') ∧
      out.length = min n s.remaining ∧
      out ++ s'.buffer_excess ++ s'.wire = s.buffer_excess ++ s.wire) ∧
    outs.join = s.buffer_excess ++ s.wire := by
  constructor
  · obtain ⟨out, s', hr, hlen⟩ := LLR.read_length s n oracle hclosed hn hinv hor
    obtain ⟨hcons, _, _, _⟩ := LLR.read_step s n oracle out s' hinv hr
    exact ⟨out, s', hr, hlen, hcons⟩
  · obtain ⟨hcons, hclosed'⟩ := LLR.runReads_spec calls s outs sf hinv hrun
    rcases hclosed' hdone with ⟨hb, hw⟩ | hcl
    · rw [← hcons, hb, hw]
      simp
    · rw [hclosed] at hcl
      cases hcl

/-- Witness for C6: a three-byte body, `read(2)` against a frame of 3 bytes
(one byte overflows), then `read(5)` drains the overflow and closes; the
two reads concatenate to the body. -/
theorem c6_llr_read_exact_slicing_witness :
    (∃ out s', LLR.read ⟨[1, 2, 3], [], false, false⟩ (some 2) 3 = .ok (out, s') ∧
      out.length = 2 ∧
      out ++ s'.buffer_excess ++ s'.wire = [1, 2, 3]) ∧
    ([[1, 2], [3]] : List (List Nat)).join = ([1, 2, 3] : List Nat) :=
  c6_llr_read_exact_slicing ⟨[1, 2, 3], [], false, false⟩ 2 3
    [(2, 3), (5, 0)] [[1, 2], [3]] ⟨[], [], true, true⟩
    rfl (by decide) (by decide) (by decide) (by decide) (by decide) rfl
